import Mathlib

/-!
Verification of the AgentCore example scripts (browser, code-interpreter,
memory, gateway demos) against their natural-language specification.

The demos share two pieces of logic that this file embeds:

* a bounded status-polling loop (`for i in range(bound): fetch; classify;
  sleep(2)` with a `for ... else` timeout), used when creating a browser
  session, a memory resource and a gateway, and — in a variant that swallows
  all exceptions — when waiting for memory/gateway deletion to complete;
* a `try / except / finally` resource lifecycle: create, run the body,
  re-raise body errors after logging, and tear the resource down in the
  `finally` block guarded by the resource id, with teardown errors caught
  and logged.

Loops are embedded as fuel recursion over an oracle `fetch : Nat → α`
giving the response of the i-th status fetch; each loop also produces a
trace of observable events (fetches and sleeps) so that fetch counts,
sleep durations and fetch/sleep ordering can be stated.
-/

/-- Observable events of a polling loop: the i-th status fetch
(`get_browser_session` / `get_memory` / `get_gateway`) or a sleep of the
given number of seconds (`time.sleep`). -/
inductive PollEv where
  | fetch (i : Nat)
  | sleep (seconds : Nat)
deriving DecidableEq, Repr

/-- Number of status fetches in a trace. -/
def countFetches : List PollEv → Nat
  | [] => 0
  | PollEv.fetch _ :: rest => countFetches rest + 1
  | PollEv.sleep _ :: rest => countFetches rest

/-- Number of sleeps in a trace. -/
def countSleeps : List PollEv → Nat
  | [] => 0
  | PollEv.fetch _ :: rest => countSleeps rest
  | PollEv.sleep _ :: rest => countSleeps rest + 1

/-- Every sleep in the trace lasts exactly 2 seconds (fixed interval,
no backoff, no jitter). -/
def sleepsAreTwo : List PollEv → Bool
  | [] => true
  | PollEv.fetch _ :: rest => sleepsAreTwo rest
  | PollEv.sleep s :: rest => (s == 2) && sleepsAreTwo rest

/-- Outcome of a creation-polling loop: `ready r` embeds `break` with the
ready response `r` in hand, `failed r` embeds `raise Exception(f"... {r}")`
(the raised error surfaces the response payload `r`), and `timeout` embeds
the `for ... else: raise Exception("... within timeout")` branch. -/
inductive PollResult (α : Type) where
  | ready (payload : α)
  | failed (payload : α)
  | timeout
deriving DecidableEq, Repr

/-- A polling loop run: its classification outcome and the trace of
fetches and sleeps it performed. -/
structure PollOutcome (α : Type) where
  result : PollResult α
  trace : List PollEv
deriving DecidableEq, Repr

/-- Embedding of the shared creation-polling loop body, starting at
iteration index `i` with `n` iterations of budget left.  Each iteration
fetches the status, exits with the same response on a ready status, raises
(surfacing the response) on a failure status, and otherwise sleeps 2
seconds and continues; an exhausted budget is a timeout. -/
def pollFrom {α : Type} (ready fail : α → Bool) (fetch : Nat → α) :
    Nat → Nat → PollOutcome α
  | _i, 0 => ⟨PollResult.timeout, []⟩
  | i, n + 1 =>
    let r := fetch i
    if ready r then ⟨PollResult.ready r, [PollEv.fetch i]⟩
    else if fail r then ⟨PollResult.failed r, [PollEv.fetch i]⟩
    else
      let rest := pollFrom ready fail fetch (i + 1) n
      ⟨rest.result, PollEv.fetch i :: PollEv.sleep 2 :: rest.trace⟩

/-- A whole creation-polling loop: `for i in range(bound)` starting at 0. -/
def pollLoop {α : Type} (ready fail : α → Bool) (bound : Nat)
    (fetch : Nat → α) : PollOutcome α :=
  pollFrom ready fail fetch 0 bound

/-- The trace of a loop whose first ready/failed response is at index
`i + k`: alternating fetch/sleep pairs, ending with the terminal fetch and
no sleep after it. -/
def runTrace : Nat → Nat → List PollEv
  | i, 0 => [PollEv.fetch i]
  | i, k + 1 => PollEv.fetch i :: PollEv.sleep 2 :: runTrace (i + 1) k

/-- The trace of a loop that exhausts all `n` iterations without a
terminal response: `n` fetch/sleep pairs (the Python loop sleeps at the end
of every non-terminal iteration, including the last). -/
def fullTrace : Nat → Nat → List PollEv
  | _i, 0 => []
  | i, n + 1 => PollEv.fetch i :: PollEv.sleep 2 :: fullTrace (i + 1) n

/-! ## Browser demo (src/articles/examples/browser/main.py) -/

/-- One stream entry of the `streams` field of a `get_browser_session`
response (`streams.get('automationStream', {}).get('streamEndpoint')`). -/
structure StreamInfo where
  streamEndpoint : Option String
deriving DecidableEq, Repr

/-- The `streams` field of a `get_browser_session` response. -/
structure Streams where
  automationStream : Option StreamInfo
  liveViewStream : Option StreamInfo
deriving DecidableEq, Repr

/-- A `get_browser_session` response: a status string and an optional
`streams` field. -/
structure SessionInfo where
  status : String
  streams : Option Streams
deriving DecidableEq, Repr

/-- `session_info.get('streams', {}).get('automationStream', {}).get('streamEndpoint')`. -/
def getAutomationUrl (info : SessionInfo) : Option String :=
  match info.streams with
  | none => none
  | some s =>
    match s.automationStream with
    | none => none
    | some st => st.streamEndpoint

/-- `session_info.get('streams', {}).get('liveViewStream', {}).get('streamEndpoint')`. -/
def getLiveViewUrl (info : SessionInfo) : Option String :=
  match info.streams with
  | none => none
  | some s =>
    match s.liveViewStream with
    | none => none
    | some st => st.streamEndpoint

/-- Browser ready statuses: `status in ('ACTIVE', 'READY')`. -/
def browserReady (s : String) : Bool := s == "ACTIVE" || s == "READY"

/-- Browser failure statuses: `status in ('FAILED', 'STOPPED')`. -/
def browserFail (s : String) : Bool := s == "FAILED" || s == "STOPPED"

/-- Browser poll budget: `for i in range(60)`. -/
def browserPollBound : Nat := 60

/-- The browser session readiness poll. -/
def browserPoll (fetch : Nat → SessionInfo) : PollOutcome SessionInfo :=
  pollLoop (fun r => browserReady r.status) (fun r => browserFail r.status)
    browserPollBound fetch

/-- State of the browser demo after the readiness wait: `automation_url`
and `live_view_url` start as `None` and are assigned only in the ready
branch, from the very response that carried the ready status. -/
structure BrowserWaitState where
  automationUrl : Option String
  liveViewUrl : Option String
  result : PollResult SessionInfo
deriving DecidableEq, Repr

/-- The browser demo readiness wait: run the poll and surface the stream
URLs exactly in the ready branch. -/
def browserWait (fetch : Nat → SessionInfo) : BrowserWaitState :=
  match (browserPoll fetch).result with
  | PollResult.ready info =>
    ⟨getAutomationUrl info, getLiveViewUrl info, PollResult.ready info⟩
  | r => ⟨none, none, r⟩

/-! ## Memory demo (src/articles/examples/memory/main.py) -/

/-- The `memory` object of a `get_memory` response. -/
structure MemoryDesc where
  status : String
deriving DecidableEq, Repr

/-- A `get_memory` response: `status_response['memory']['status']`. -/
structure GetMemoryResponse where
  memory : MemoryDesc
deriving DecidableEq, Repr

/-- Memory ready status: `status == 'ACTIVE'`. -/
def memoryReady (s : String) : Bool := s == "ACTIVE"

/-- Memory failure status: `status == 'FAILED'`. -/
def memoryFail (s : String) : Bool := s == "FAILED"

/-- Memory creation poll budget: `for i in range(150)`. -/
def memoryCreateBound : Nat := 150

/-- The memory creation readiness poll. -/
def memoryCreatePoll (fetch : Nat → GetMemoryResponse) :
    PollOutcome GetMemoryResponse :=
  pollLoop (fun r => memoryReady r.memory.status)
    (fun r => memoryFail r.memory.status) memoryCreateBound fetch

/-! ## Gateway demo (src/articles/examples/gateway/main.py) -/

/-- A `get_gateway` response: a status string and an optional
`gatewayUrl`. -/
structure GetGatewayResponse where
  status : String
  gatewayUrl : Option String
deriving DecidableEq, Repr

/-- Gateway ready statuses: `status in ('ACTIVE', 'READY')`. -/
def gatewayReady (s : String) : Bool := s == "ACTIVE" || s == "READY"

/-- Gateway failure status: `status == 'FAILED'`. -/
def gatewayFail (s : String) : Bool := s == "FAILED"

/-- Gateway creation poll budget: `for i in range(60)`. -/
def gatewayCreateBound : Nat := 60

/-- The gateway creation readiness poll. -/
def gatewayCreatePoll (fetch : Nat → GetGatewayResponse) :
    PollOutcome GetGatewayResponse :=
  pollLoop (fun r => gatewayReady r.status) (fun r => gatewayFail r.status)
    gatewayCreateBound fetch

/-- The gateway demo readiness wait: `gateway_endpoint` starts as `None`
and is assigned `status_response.get('gatewayUrl', 'N/A')` only in the
ready branch. -/
def gatewayWaitEndpoint (fetch : Nat → GetGatewayResponse) : Option String :=
  match (gatewayCreatePoll fetch).result with
  | PollResult.ready r => some (r.gatewayUrl.getD "N/A")
  | _ => none

/-! ## Deletion polls (memory and gateway cleanup blocks)

Both cleanup blocks poll for deletion with the same shape: each iteration
fetches the status inside a `try`, breaks on a terminal status
(`'DELETED'`/`'FAILED'`), breaks on `ResourceNotFoundException` and on any
other exception, and otherwise sleeps 2 seconds; when the 60-iteration
budget is exhausted the loop simply falls through — no timeout error is
raised, and the cleanup prints its success message regardless. -/

/-- Exceptions a deletion-status fetch can raise, as the cleanup loop
distinguishes them: `ResourceNotFoundException` or anything else. -/
inductive FetchErr where
  | resourceNotFound
  | other
deriving DecidableEq, Repr

/-- Outcome of a deletion-polling loop: a terminal status was seen, the
fetch raised (resource gone or another error — the loop breaks either
way), or the budget was exhausted without either (loop falls through). -/
inductive DelResult (α : Type) where
  | terminal (r : α)
  | interrupted (e : FetchErr)
  | exhausted
deriving DecidableEq, Repr

/-- A deletion-polling loop run: outcome plus performed trace. -/
structure DelOutcome (α : Type) where
  result : DelResult α
  trace : List PollEv
deriving DecidableEq, Repr

/-- Embedding of the deletion-polling loop body starting at index `i` with
`n` iterations left. -/
def delPollFrom {α : Type} (isTerminal : α → Bool)
    (fetch : Nat → Except FetchErr α) : Nat → Nat → DelOutcome α
  | _i, 0 => ⟨DelResult.exhausted, []⟩
  | i, n + 1 =>
    match fetch i with
    | Except.error e => ⟨DelResult.interrupted e, [PollEv.fetch i]⟩
    | Except.ok r =>
      if isTerminal r then ⟨DelResult.terminal r, [PollEv.fetch i]⟩
      else
        let rest := delPollFrom isTerminal fetch (i + 1) n
        ⟨rest.result, PollEv.fetch i :: PollEv.sleep 2 :: rest.trace⟩

/-- Memory deletion terminal statuses: `status in ('DELETED', 'FAILED')`. -/
def memoryDelTerminal (r : GetMemoryResponse) : Bool :=
  r.memory.status == "DELETED" || r.memory.status == "FAILED"

/-- Memory deletion poll budget: `for i in range(60)`. -/
def memoryDeletionBound : Nat := 60

/-- The memory cleanup deletion poll. -/
def memoryDeletionPoll (fetch : Nat → Except FetchErr GetMemoryResponse) :
    DelOutcome GetMemoryResponse :=
  delPollFrom memoryDelTerminal fetch 0 memoryDeletionBound

/-- Gateway deletion terminal statuses: `status in ('DELETED', 'FAILED')`. -/
def gatewayDelTerminal (r : GetGatewayResponse) : Bool :=
  r.status == "DELETED" || r.status == "FAILED"

/-- Gateway deletion poll budget: `for i in range(60)`. -/
def gatewayDeletionBound : Nat := 60

/-- The gateway cleanup deletion poll. -/
def gatewayDeletionPoll (fetch : Nat → Except FetchErr GetGatewayResponse) :
    DelOutcome GetGatewayResponse :=
  delPollFrom gatewayDelTerminal fetch 0 gatewayDeletionBound

/-! ## Demo lifecycle (try / except / finally shape shared by the
browser, code-interpreter, memory and gateway demos) -/

/-- The two error kinds the demos handle: `botocore` `ClientError` with a
code/message pair, and any other runtime error. -/
inductive Err where
  | clientError (code msg : String)
  | runtimeError (msg : String)
deriving DecidableEq, Repr

/-- Outcome of the memory cleanup block.  The whole block sits inside
`try / except cleanup_error`, so no exception escapes (`raised`): a failed
`delete_memory` call is caught and a manual-cleanup warning printed
(`warned`); a successful delete runs the bounded deletion poll and prints
the success message regardless of how the poll ended. -/
structure CleanupOutcome (α : Type) where
  raised : Option Err
  delPoll : Option (DelOutcome α)
  warned : Bool
deriving DecidableEq, Repr

/-- Embedding of the memory demo cleanup block
(src/articles/examples/memory/main.py, `finally:` branch with
`memory_id` set). -/
def memoryCleanup (deleteRes : Except Err Unit)
    (fetch : Nat → Except FetchErr GetMemoryResponse) :
    CleanupOutcome GetMemoryResponse :=
  match deleteRes with
  | Except.error _ => ⟨none, none, true⟩
  | Except.ok _ => ⟨none, some (memoryDeletionPoll fetch), false⟩

/-- Embedding of the gateway demo cleanup block (delete gateway branch). -/
def gatewayCleanup (deleteRes : Except Err Unit)
    (fetch : Nat → Except FetchErr GetGatewayResponse) :
    CleanupOutcome GetGatewayResponse :=
  match deleteRes with
  | Except.error _ => ⟨none, none, true⟩
  | Except.ok _ => ⟨none, some (gatewayDeletionPoll fetch), false⟩

/-- Observable outcome of one demo run.  `exitErr = none` means the
process exits 0; `exitErr = some e` means the unhandled re-raise of `e`
produced a non-zero exit.  `mainErrorLogged` records the error printed by
the `except` branches before re-raising; `teardownAttempts` counts issued
stop/delete calls; `teardownErrorLogged` records that a teardown exception
was caught and logged inside the `finally` block. -/
structure RunResult where
  exitErr : Option Err
  mainErrorLogged : Option Err
  teardownAttempts : Nat
  teardownErrorLogged : Bool
deriving DecidableEq, Repr

/-- Embedding of the demo lifecycle shared by the browser,
code-interpreter, memory and gateway demos:

* the resource id starts as `None`; `create` runs inside the `try`;
* if `create` raises, the `except` branch logs and re-raises, and the
  `finally` block sees the id unset and issues no teardown call;
* if `create` succeeds, the body runs; the `except` branches log and
  re-raise a body error; the `finally` block issues the teardown call
  exactly once, catching and logging any teardown error without
  affecting the run's outcome. -/
def runDemo {ρ : Type} (create : Except Err ρ) (body : ρ → Except Err Unit)
    (teardown : ρ → Except Err Unit) : RunResult :=
  match create with
  | Except.error e =>
    { exitErr := some e, mainErrorLogged := some e,
      teardownAttempts := 0, teardownErrorLogged := false }
  | Except.ok rid =>
    let bodyRes := body rid
    let teardownLogged :=
      match teardown rid with
      | Except.error _ => true
      | Except.ok _ => false
    match bodyRes with
    | Except.ok _ =>
      { exitErr := none, mainErrorLogged := none,
        teardownAttempts := 1, teardownErrorLogged := teardownLogged }
    | Except.error e =>
      { exitErr := some e, mainErrorLogged := some e,
        teardownAttempts := 1, teardownErrorLogged := teardownLogged }

/-! ## Memory demo body: store one event, then list (src/articles/examples/memory/main.py) -/

/-- The data-plane calls the memory demo body makes after the memory is
active, with the identifying fields each call passes. -/
inductive MemApiCall where
  | createEvent (memoryId actorId sessionId : String) (payloadLen : Nat)
  | listEvents (memoryId actorId sessionId : String)
  | retrieveMemoryRecords (memoryId nspace searchQuery : String) (topK : Nat)
deriving DecidableEq, Repr

/-- `actor_id = "marvin_the_paranoid_android"`. -/
def marvinActorId : String := "marvin_the_paranoid_android"

/-- `session_id = f"session_{int(time.time())}"`. -/
def memorySessionId (t : Nat) : String := "session_" ++ toString t

/-- The sequence of data-plane calls of the memory demo body: one
`create_event` carrying a two-item conversational payload, then
`list_events` with the same `memoryId`/`actorId`/`sessionId`, then the
long-term `retrieve_memory_records` probe. -/
def memoryBodyCalls (memoryId : String) (t : Nat) : List MemApiCall :=
  [ MemApiCall.createEvent memoryId marvinActorId (memorySessionId t) 2,
    MemApiCall.listEvents memoryId marvinActorId (memorySessionId t),
    MemApiCall.retrieveMemoryRecords memoryId "preferences"
      "Marvin feelings depressed" 5 ]

/-- Recognizer for `create_event` calls. -/
def isCreateEventCall : MemApiCall → Bool
  | MemApiCall.createEvent _ _ _ _ => true
  | _ => false

/-! ## Helper lemmas about the polling loops -/

theorem pollFrom_ready_eq {α : Type} (ready fail : α → Bool)
    (fetch : Nat → α) :
    ∀ (k i n : Nat), k < n →
      (∀ j, j < k → ready (fetch (i + j)) = false ∧
        fail (fetch (i + j)) = false) →
      ready (fetch (i + k)) = true →
      pollFrom ready fail fetch i n =
        ⟨PollResult.ready (fetch (i + k)), runTrace i k⟩ := by
  intro k
  induction k with
  | zero =>
    intro i n hn _ hr
    obtain ⟨m, rfl⟩ : ∃ m, n = m + 1 := ⟨n - 1, by omega⟩
    rw [Nat.add_zero] at hr
    simp [pollFrom, hr, runTrace]
  | succ k ih =>
    intro i n hn hj hr
    obtain ⟨m, rfl⟩ : ∃ m, n = m + 1 := ⟨n - 1, by omega⟩
    have h0 := hj 0 (Nat.succ_pos k)
    rw [Nat.add_zero] at h0
    have hshift : ∀ j, j < k → ready (fetch (i + 1 + j)) = false ∧
        fail (fetch (i + 1 + j)) = false := by
      intro j hjk
      have hh := hj (j + 1) (by omega)
      have e : i + (j + 1) = i + 1 + j := by omega
      rwa [e] at hh
    have hr1 : ready (fetch (i + 1 + k)) = true := by
      have e : i + (k + 1) = i + 1 + k := by omega
      rwa [e] at hr
    have hrec := ih (i + 1) m (by omega) hshift hr1
    have e : i + (k + 1) = i + 1 + k := by omega
    rw [e]
    simp [pollFrom, h0.1, h0.2, hrec, runTrace]

theorem pollFrom_failed_eq {α : Type} (ready fail : α → Bool)
    (fetch : Nat → α) :
    ∀ (k i n : Nat), k < n →
      (∀ j, j < k → ready (fetch (i + j)) = false ∧
        fail (fetch (i + j)) = false) →
      ready (fetch (i + k)) = false → fail (fetch (i + k)) = true →
      pollFrom ready fail fetch i n =
        ⟨PollResult.failed (fetch (i + k)), runTrace i k⟩ := by
  intro k
  induction k with
  | zero =>
    intro i n hn _ hr hf
    obtain ⟨m, rfl⟩ : ∃ m, n = m + 1 := ⟨n - 1, by omega⟩
    rw [Nat.add_zero] at hr hf
    simp [pollFrom, hr, hf, runTrace]
  | succ k ih =>
    intro i n hn hj hr hf
    obtain ⟨m, rfl⟩ : ∃ m, n = m + 1 := ⟨n - 1, by omega⟩
    have h0 := hj 0 (Nat.succ_pos k)
    rw [Nat.add_zero] at h0
    have hshift : ∀ j, j < k → ready (fetch (i + 1 + j)) = false ∧
        fail (fetch (i + 1 + j)) = false := by
      intro j hjk
      have hh := hj (j + 1) (by omega)
      have e : i + (j + 1) = i + 1 + j := by omega
      rwa [e] at hh
    have e : i + (k + 1) = i + 1 + k := by omega
    rw [e] at hr hf ⊢
    have hrec := ih (i + 1) m (by omega) hshift hr hf
    simp [pollFrom, h0.1, h0.2, hrec, runTrace]

theorem pollFrom_timeout_eq {α : Type} (ready fail : α → Bool)
    (fetch : Nat → α) :
    ∀ (n i : Nat),
      (∀ j, j < n → ready (fetch (i + j)) = false ∧
        fail (fetch (i + j)) = false) →
      pollFrom ready fail fetch i n = ⟨PollResult.timeout, fullTrace i n⟩ := by
  intro n
  induction n with
  | zero => intro i _; simp [pollFrom, fullTrace]
  | succ n ih =>
    intro i hj
    have h0 := hj 0 (Nat.succ_pos n)
    rw [Nat.add_zero] at h0
    have hshift : ∀ j, j < n → ready (fetch (i + 1 + j)) = false ∧
        fail (fetch (i + 1 + j)) = false := by
      intro j hjn
      have hh := hj (j + 1) (by omega)
      have e : i + (j + 1) = i + 1 + j := by omega
      rwa [e] at hh
    simp [pollFrom, h0.1, h0.2, ih (i + 1) hshift, fullTrace]

theorem pollFrom_countFetches_le {α : Type} (ready fail : α → Bool)
    (fetch : Nat → α) :
    ∀ (n i : Nat), countFetches (pollFrom ready fail fetch i n).trace ≤ n := by
  intro n
  induction n with
  | zero => intro i; simp [pollFrom, countFetches]
  | succ n ih =>
    intro i
    by_cases h1 : ready (fetch i) = true
    · simp [pollFrom, h1, countFetches]
    · rw [Bool.not_eq_true] at h1
      by_cases h2 : fail (fetch i) = true
      · simp [pollFrom, h1, h2, countFetches]
      · rw [Bool.not_eq_true] at h2
        have hrec := ih (i + 1)
        simp [pollFrom, h1, h2, countFetches]
        omega

theorem pollFrom_countSleeps_le {α : Type} (ready fail : α → Bool)
    (fetch : Nat → α) :
    ∀ (n i : Nat), countSleeps (pollFrom ready fail fetch i n).trace ≤ n := by
  intro n
  induction n with
  | zero => intro i; simp [pollFrom, countSleeps]
  | succ n ih =>
    intro i
    by_cases h1 : ready (fetch i) = true
    · simp [pollFrom, h1, countSleeps]
    · rw [Bool.not_eq_true] at h1
      by_cases h2 : fail (fetch i) = true
      · simp [pollFrom, h1, h2, countSleeps]
      · rw [Bool.not_eq_true] at h2
        have hrec := ih (i + 1)
        simp [pollFrom, h1, h2, countSleeps]
        omega

theorem pollFrom_sleepsAreTwo {α : Type} (ready fail : α → Bool)
    (fetch : Nat → α) :
    ∀ (n i : Nat), sleepsAreTwo (pollFrom ready fail fetch i n).trace = true := by
  intro n
  induction n with
  | zero => intro i; simp [pollFrom, sleepsAreTwo]
  | succ n ih =>
    intro i
    by_cases h1 : ready (fetch i) = true
    · simp [pollFrom, h1, sleepsAreTwo]
    · rw [Bool.not_eq_true] at h1
      by_cases h2 : fail (fetch i) = true
      · simp [pollFrom, h1, h2, sleepsAreTwo]
      · rw [Bool.not_eq_true] at h2
        simp [pollFrom, h1, h2, sleepsAreTwo, ih (i + 1)]

theorem pollFrom_ready_pred {α : Type} (ready fail : α → Bool)
    (fetch : Nat → α) :
    ∀ (n i : Nat) (r : α),
      (pollFrom ready fail fetch i n).result = PollResult.ready r →
      ready r = true := by
  intro n
  induction n with
  | zero => intro i r h; simp [pollFrom] at h
  | succ n ih =>
    intro i r h
    by_cases h1 : ready (fetch i) = true
    · simp [pollFrom, h1] at h
      rw [← h]; exact h1
    · rw [Bool.not_eq_true] at h1
      by_cases h2 : fail (fetch i) = true
      · simp [pollFrom, h1, h2] at h
      · rw [Bool.not_eq_true] at h2
        simp [pollFrom, h1, h2] at h
        exact ih (i + 1) r h

theorem countFetches_runTrace : ∀ (k i : Nat),
    countFetches (runTrace i k) = k + 1 := by
  intro k
  induction k with
  | zero => intro i; simp [runTrace, countFetches]
  | succ k ih => intro i; simp [runTrace, countFetches, ih]

theorem countSleeps_runTrace : ∀ (k i : Nat),
    countSleeps (runTrace i k) = k := by
  intro k
  induction k with
  | zero => intro i; simp [runTrace, countSleeps]
  | succ k ih => intro i; simp [runTrace, countSleeps, ih]

theorem countFetches_fullTrace : ∀ (n i : Nat),
    countFetches (fullTrace i n) = n := by
  intro n
  induction n with
  | zero => intro i; simp [fullTrace, countFetches]
  | succ n ih => intro i; simp [fullTrace, countFetches, ih]

theorem delPollFrom_countFetches_le {α : Type} (isTerminal : α → Bool)
    (fetch : Nat → Except FetchErr α) :
    ∀ (n i : Nat),
      countFetches (delPollFrom isTerminal fetch i n).trace ≤ n := by
  intro n
  induction n with
  | zero => intro i; simp [delPollFrom, countFetches]
  | succ n ih =>
    intro i
    cases hf : fetch i with
    | error e => simp [delPollFrom, hf, countFetches]
    | ok r =>
      by_cases ht : isTerminal r = true
      · simp [delPollFrom, hf, ht, countFetches]
      · rw [Bool.not_eq_true] at ht
        have hrec := ih (i + 1)
        simp [delPollFrom, hf, ht, countFetches]
        omega

theorem delPollFrom_sleepsAreTwo {α : Type} (isTerminal : α → Bool)
    (fetch : Nat → Except FetchErr α) :
    ∀ (n i : Nat),
      sleepsAreTwo (delPollFrom isTerminal fetch i n).trace = true := by
  intro n
  induction n with
  | zero => intro i; simp [delPollFrom, sleepsAreTwo]
  | succ n ih =>
    intro i
    cases hf : fetch i with
    | error e => simp [delPollFrom, hf, sleepsAreTwo]
    | ok r =>
      by_cases ht : isTerminal r = true
      · simp [delPollFrom, hf, ht, sleepsAreTwo]
      · rw [Bool.not_eq_true] at ht
        simp [delPollFrom, hf, ht, sleepsAreTwo, ih (i + 1)]

/-! ## Per-demo specializations of the polling lemmas -/

theorem browserPoll_ready_eq (fetch : Nat → SessionInfo) (k : Nat)
    (hk : k < browserPollBound)
    (hj : ∀ j, j < k → browserReady (fetch j).status = false ∧
      browserFail (fetch j).status = false)
    (hr : browserReady (fetch k).status = true) :
    browserPoll fetch = ⟨PollResult.ready (fetch k), runTrace 0 k⟩ := by
  have h := pollFrom_ready_eq (fun r => browserReady r.status)
    (fun r => browserFail r.status) fetch k 0 browserPollBound hk
    (by intro j hjk; simpa using hj j hjk) (by simpa using hr)
  simpa [browserPoll, pollLoop] using h

theorem browserPoll_failed_eq (fetch : Nat → SessionInfo) (k : Nat)
    (hk : k < browserPollBound)
    (hj : ∀ j, j < k → browserReady (fetch j).status = false ∧
      browserFail (fetch j).status = false)
    (hr : browserReady (fetch k).status = false)
    (hf : browserFail (fetch k).status = true) :
    browserPoll fetch = ⟨PollResult.failed (fetch k), runTrace 0 k⟩ := by
  have h := pollFrom_failed_eq (fun r => browserReady r.status)
    (fun r => browserFail r.status) fetch k 0 browserPollBound hk
    (by intro j hjk; simpa using hj j hjk) (by simpa using hr)
    (by simpa using hf)
  simpa [browserPoll, pollLoop] using h

theorem browserPoll_timeout_eq (fetch : Nat → SessionInfo)
    (hj : ∀ j, j < browserPollBound → browserReady (fetch j).status = false ∧
      browserFail (fetch j).status = false) :
    browserPoll fetch = ⟨PollResult.timeout, fullTrace 0 browserPollBound⟩ := by
  have h := pollFrom_timeout_eq (fun r => browserReady r.status)
    (fun r => browserFail r.status) fetch browserPollBound 0
    (by intro j hjk; simpa using hj j hjk)
  simpa [browserPoll, pollLoop] using h

theorem memoryCreatePoll_ready_eq (fetch : Nat → GetMemoryResponse) (k : Nat)
    (hk : k < memoryCreateBound)
    (hj : ∀ j, j < k → memoryReady (fetch j).memory.status = false ∧
      memoryFail (fetch j).memory.status = false)
    (hr : memoryReady (fetch k).memory.status = true) :
    memoryCreatePoll fetch = ⟨PollResult.ready (fetch k), runTrace 0 k⟩ := by
  have h := pollFrom_ready_eq (fun r => memoryReady r.memory.status)
    (fun r => memoryFail r.memory.status) fetch k 0 memoryCreateBound hk
    (by intro j hjk; simpa using hj j hjk) (by simpa using hr)
  simpa [memoryCreatePoll, pollLoop] using h

theorem memoryCreatePoll_failed_eq (fetch : Nat → GetMemoryResponse) (k : Nat)
    (hk : k < memoryCreateBound)
    (hj : ∀ j, j < k → memoryReady (fetch j).memory.status = false ∧
      memoryFail (fetch j).memory.status = false)
    (hr : memoryReady (fetch k).memory.status = false)
    (hf : memoryFail (fetch k).memory.status = true) :
    memoryCreatePoll fetch = ⟨PollResult.failed (fetch k), runTrace 0 k⟩ := by
  have h := pollFrom_failed_eq (fun r => memoryReady r.memory.status)
    (fun r => memoryFail r.memory.status) fetch k 0 memoryCreateBound hk
    (by intro j hjk; simpa using hj j hjk) (by simpa using hr)
    (by simpa using hf)
  simpa [memoryCreatePoll, pollLoop] using h

theorem memoryCreatePoll_timeout_eq (fetch : Nat → GetMemoryResponse)
    (hj : ∀ j, j < memoryCreateBound →
      memoryReady (fetch j).memory.status = false ∧
      memoryFail (fetch j).memory.status = false) :
    memoryCreatePoll fetch =
      ⟨PollResult.timeout, fullTrace 0 memoryCreateBound⟩ := by
  have h := pollFrom_timeout_eq (fun r => memoryReady r.memory.status)
    (fun r => memoryFail r.memory.status) fetch memoryCreateBound 0
    (by intro j hjk; simpa using hj j hjk)
  simpa [memoryCreatePoll, pollLoop] using h

theorem gatewayCreatePoll_ready_eq (fetch : Nat → GetGatewayResponse) (k : Nat)
    (hk : k < gatewayCreateBound)
    (hj : ∀ j, j < k → gatewayReady (fetch j).status = false ∧
      gatewayFail (fetch j).status = false)
    (hr : gatewayReady (fetch k).status = true) :
    gatewayCreatePoll fetch = ⟨PollResult.ready (fetch k), runTrace 0 k⟩ := by
  have h := pollFrom_ready_eq (fun r => gatewayReady r.status)
    (fun r => gatewayFail r.status) fetch k 0 gatewayCreateBound hk
    (by intro j hjk; simpa using hj j hjk) (by simpa using hr)
  simpa [gatewayCreatePoll, pollLoop] using h

theorem gatewayCreatePoll_failed_eq (fetch : Nat → GetGatewayResponse) (k : Nat)
    (hk : k < gatewayCreateBound)
    (hj : ∀ j, j < k → gatewayReady (fetch j).status = false ∧
      gatewayFail (fetch j).status = false)
    (hr : gatewayReady (fetch k).status = false)
    (hf : gatewayFail (fetch k).status = true) :
    gatewayCreatePoll fetch = ⟨PollResult.failed (fetch k), runTrace 0 k⟩ := by
  have h := pollFrom_failed_eq (fun r => gatewayReady r.status)
    (fun r => gatewayFail r.status) fetch k 0 gatewayCreateBound hk
    (by intro j hjk; simpa using hj j hjk) (by simpa using hr)
    (by simpa using hf)
  simpa [gatewayCreatePoll, pollLoop] using h

theorem gatewayCreatePoll_timeout_eq (fetch : Nat → GetGatewayResponse)
    (hj : ∀ j, j < gatewayCreateBound → gatewayReady (fetch j).status = false ∧
      gatewayFail (fetch j).status = false) :
    gatewayCreatePoll fetch =
      ⟨PollResult.timeout, fullTrace 0 gatewayCreateBound⟩ := by
  have h := pollFrom_timeout_eq (fun r => gatewayReady r.status)
    (fun r => gatewayFail r.status) fetch gatewayCreateBound 0
    (by intro j hjk; simpa using hj j hjk)
  simpa [gatewayCreatePoll, pollLoop] using h

/-! ## Concrete responses used as witness inputs -/

/-- A browser-session response that is already ACTIVE. -/
def activeSessionInfo : SessionInfo := ⟨"ACTIVE", none⟩

/-- A browser-session response still CREATING. -/
def creatingSessionInfo : SessionInfo := ⟨"CREATING", none⟩

/-- A memory response still CREATING. -/
def creatingMemoryResponse : GetMemoryResponse := ⟨⟨"CREATING"⟩⟩

/-- A gateway response in the FAILED terminal state. -/
def failedGatewayResponse : GetGatewayResponse := ⟨"FAILED", none⟩

/-! ## Claims -/

/-- C1: in each creation polling loop, a fetched status in the ready set
(`ACTIVE`/`READY` for browser and gateway, `ACTIVE` for memory) exits the
loop with that same response as the result; a fetched status in the
terminal-failure set (`FAILED`/`STOPPED` for browser, `FAILED` for memory
and gateway) raises an error surfacing that response payload (embedded as
`PollResult.failed` carrying the response); and an exhausted iteration
bound with neither observed raises a timeout error (`PollResult.timeout`). -/
theorem claim_C1_poll_classification :
    (∀ (fetch : Nat → SessionInfo) (k : Nat), k < browserPollBound →
      (∀ j, j < k → browserReady (fetch j).status = false ∧
        browserFail (fetch j).status = false) →
      ((browserReady (fetch k).status = true →
        (browserPoll fetch).result = PollResult.ready (fetch k)) ∧
       (browserReady (fetch k).status = false →
        browserFail (fetch k).status = true →
        (browserPoll fetch).result = PollResult.failed (fetch k)))) ∧
    (∀ fetch : Nat → SessionInfo,
      (∀ j, j < browserPollBound → browserReady (fetch j).status = false ∧
        browserFail (fetch j).status = false) →
      (browserPoll fetch).result = PollResult.timeout) ∧
    (∀ (fetch : Nat → GetMemoryResponse) (k : Nat), k < memoryCreateBound →
      (∀ j, j < k → memoryReady (fetch j).memory.status = false ∧
        memoryFail (fetch j).memory.status = false) →
      ((memoryReady (fetch k).memory.status = true →
        (memoryCreatePoll fetch).result = PollResult.ready (fetch k)) ∧
       (memoryReady (fetch k).memory.status = false →
        memoryFail (fetch k).memory.status = true →
        (memoryCreatePoll fetch).result = PollResult.failed (fetch k)))) ∧
    (∀ fetch : Nat → GetMemoryResponse,
      (∀ j, j < memoryCreateBound →
        memoryReady (fetch j).memory.status = false ∧
        memoryFail (fetch j).memory.status = false) →
      (memoryCreatePoll fetch).result = PollResult.timeout) ∧
    (∀ (fetch : Nat → GetGatewayResponse) (k : Nat), k < gatewayCreateBound →
      (∀ j, j < k → gatewayReady (fetch j).status = false ∧
        gatewayFail (fetch j).status = false) →
      ((gatewayReady (fetch k).status = true →
        (gatewayCreatePoll fetch).result = PollResult.ready (fetch k)) ∧
       (gatewayReady (fetch k).status = false →
        gatewayFail (fetch k).status = true →
        (gatewayCreatePoll fetch).result = PollResult.failed (fetch k)))) ∧
    (∀ fetch : Nat → GetGatewayResponse,
      (∀ j, j < gatewayCreateBound → gatewayReady (fetch j).status = false ∧
        gatewayFail (fetch j).status = false) →
      (gatewayCreatePoll fetch).result = PollResult.timeout) := by
  refine ⟨?_, ?_, ?_, ?_, ?_, ?_⟩
  · intro fetch k hk hj
    refine ⟨fun hr => ?_, fun hr hf => ?_⟩
    · simp [browserPoll_ready_eq fetch k hk hj hr]
    · simp [browserPoll_failed_eq fetch k hk hj hr hf]
  · intro fetch hj
    simp [browserPoll_timeout_eq fetch hj]
  · intro fetch k hk hj
    refine ⟨fun hr => ?_, fun hr hf => ?_⟩
    · simp [memoryCreatePoll_ready_eq fetch k hk hj hr]
    · simp [memoryCreatePoll_failed_eq fetch k hk hj hr hf]
  · intro fetch hj
    simp [memoryCreatePoll_timeout_eq fetch hj]
  · intro fetch k hk hj
    refine ⟨fun hr => ?_, fun hr hf => ?_⟩
    · simp [gatewayCreatePoll_ready_eq fetch k hk hj hr]
    · simp [gatewayCreatePoll_failed_eq fetch k hk hj hr hf]
  · intro fetch hj
    simp [gatewayCreatePoll_timeout_eq fetch hj]

/-- Witness for C1 at concrete inputs: a session that is ACTIVE on the
first fetch is returned as the ready payload; a memory stuck in CREATING
for the whole budget times out; a gateway FAILED on the first fetch makes
the loop raise with that response. -/
theorem claim_C1_witness :
    (browserPoll fun _ => activeSessionInfo).result =
      PollResult.ready activeSessionInfo ∧
    (memoryCreatePoll fun _ => creatingMemoryResponse).result =
      PollResult.timeout ∧
    (gatewayCreatePoll fun _ => failedGatewayResponse).result =
      PollResult.failed failedGatewayResponse :=
  ⟨(claim_C1_poll_classification.1 (fun _ => activeSessionInfo) 0 (by decide)
      (fun j hj => absurd hj (Nat.not_lt_zero j))).1 rfl,
   claim_C1_poll_classification.2.2.2.1 (fun _ => creatingMemoryResponse)
      (fun _ _ => ⟨rfl, rfl⟩),
   (claim_C1_poll_classification.2.2.2.2.1 (fun _ => failedGatewayResponse) 0
      (by decide) (fun j hj => absurd hj (Nat.not_lt_zero j))).2 rfl rfl⟩

/-- A deletion-status oracle that always reports DELETING. -/
def alwaysDeletingMemory : Nat → Except FetchErr GetMemoryResponse :=
  fun _ => Except.ok ⟨⟨"DELETING"⟩⟩

/-- C2 counterexample: the memory deletion poll run against a status that
stays DELETING performs its full budget of 60 fetches without observing a
terminal state, and then the cleanup block raises nothing at all — it
falls through and prints its success message — contradicting the claim
that every polling loop raises a timeout error when its bound is exhausted
without a ready or failure state. -/
theorem claim_C2_counterexample :
    countFetches (memoryDeletionPoll alwaysDeletingMemory).trace =
      memoryDeletionBound ∧
    (memoryDeletionPoll alwaysDeletingMemory).result = DelResult.exhausted ∧
    (memoryCleanup (Except.ok ()) alwaysDeletingMemory).raised = none := by
  exact ⟨rfl, rfl, rfl⟩

/-- C2 (amended): every polling loop performs at most its configured
number of status fetches (60 for the browser, gateway and both deletion
polls; 150 for memory creation) for every possible status sequence, and
the three creation polls raise a timeout error when the bound is exhausted
without a ready or failure state; the two deletion polls instead fall
through silently — the cleanup blocks never raise. -/
theorem claim_C2_bounded_polling :
    (∀ fetch : Nat → SessionInfo,
      countFetches (browserPoll fetch).trace ≤ browserPollBound) ∧
    (∀ fetch : Nat → GetMemoryResponse,
      countFetches (memoryCreatePoll fetch).trace ≤ memoryCreateBound) ∧
    (∀ fetch : Nat → GetGatewayResponse,
      countFetches (gatewayCreatePoll fetch).trace ≤ gatewayCreateBound) ∧
    (∀ fetch : Nat → Except FetchErr GetMemoryResponse,
      countFetches (memoryDeletionPoll fetch).trace ≤ memoryDeletionBound) ∧
    (∀ fetch : Nat → Except FetchErr GetGatewayResponse,
      countFetches (gatewayDeletionPoll fetch).trace ≤ gatewayDeletionBound) ∧
    (∀ fetch : Nat → SessionInfo,
      (∀ j, j < browserPollBound → browserReady (fetch j).status = false ∧
        browserFail (fetch j).status = false) →
      (browserPoll fetch).result = PollResult.timeout) ∧
    (∀ fetch : Nat → GetMemoryResponse,
      (∀ j, j < memoryCreateBound →
        memoryReady (fetch j).memory.status = false ∧
        memoryFail (fetch j).memory.status = false) →
      (memoryCreatePoll fetch).result = PollResult.timeout) ∧
    (∀ fetch : Nat → GetGatewayResponse,
      (∀ j, j < gatewayCreateBound → gatewayReady (fetch j).status = false ∧
        gatewayFail (fetch j).status = false) →
      (gatewayCreatePoll fetch).result = PollResult.timeout) ∧
    (∀ (deleteRes : Except Err Unit)
      (fetch : Nat → Except FetchErr GetMemoryResponse),
      (memoryCleanup deleteRes fetch).raised = none) ∧
    (∀ (deleteRes : Except Err Unit)
      (fetch : Nat → Except FetchErr GetGatewayResponse),
      (gatewayCleanup deleteRes fetch).raised = none) := by
  refine ⟨?_, ?_, ?_, ?_, ?_, ?_, ?_, ?_, ?_, ?_⟩
  · intro fetch
    exact pollFrom_countFetches_le _ _ fetch browserPollBound 0
  · intro fetch
    exact pollFrom_countFetches_le _ _ fetch memoryCreateBound 0
  · intro fetch
    exact pollFrom_countFetches_le _ _ fetch gatewayCreateBound 0
  · intro fetch
    exact delPollFrom_countFetches_le _ fetch memoryDeletionBound 0
  · intro fetch
    exact delPollFrom_countFetches_le _ fetch gatewayDeletionBound 0
  · intro fetch hj
    simp [browserPoll_timeout_eq fetch hj]
  · intro fetch hj
    simp [memoryCreatePoll_timeout_eq fetch hj]
  · intro fetch hj
    simp [gatewayCreatePoll_timeout_eq fetch hj]
  · intro deleteRes fetch
    cases deleteRes <;> rfl
  · intro deleteRes fetch
    cases deleteRes <;> rfl

/-- Witness for C2 at a concrete input: a browser session stuck in
CREATING times out, and its trace stays within the 60-fetch budget. -/
theorem claim_C2_witness :
    (browserPoll fun _ => creatingSessionInfo).result = PollResult.timeout ∧
    countFetches (browserPoll fun _ => creatingSessionInfo).trace ≤
      browserPollBound :=
  ⟨claim_C2_bounded_polling.2.2.2.2.2.1 (fun _ => creatingSessionInfo)
      (fun _ _ => ⟨rfl, rfl⟩),
   claim_C2_bounded_polling.1 (fun _ => creatingSessionInfo)⟩

/-! ## Lifecycle claims -/

/-- A create call that raises before the resource id is assigned. -/
def failingCreate : Except Err Nat :=
  Except.error (Err.runtimeError "create failed")

/-- A demo body that completes normally. -/
def okBody : Nat → Except Err Unit := fun _ => Except.ok ()

/-- A teardown call that succeeds. -/
def okTeardown : Nat → Except Err Unit := fun _ => Except.ok ()

/-- A teardown call that raises. -/
def badTeardown : Nat → Except Err Unit :=
  fun _ => Except.error (Err.runtimeError "teardown boom")

/-- The AccessDenied-style client error used as a concrete body failure. -/
def accessDeniedErr : Err :=
  Err.clientError "AccessDeniedException" "no bedrock-agentcore permissions"

/-- A demo body that raises a remote-service error. -/
def accessDeniedBody : Nat → Except Err Unit :=
  fun _ => Except.error accessDeniedErr

/-- C3 counterexample: in a run whose create call raises before the
resource id is assigned, the finally block sees the id unset and issues no
stop/delete call, so the teardown is attempted zero times — not "exactly
once, unconditionally" as the claim states for every execution. -/
theorem claim_C3_counterexample :
    (runDemo failingCreate okBody okTeardown).teardownAttempts = 0 ∧
    ¬ (runDemo failingCreate okBody okTeardown).teardownAttempts = 1 :=
  ⟨rfl, by decide⟩

/-- C3 (amended): in every execution of a demo that manages a remote
resource, if the create call succeeded (so the resource id was assigned),
the teardown call is attempted exactly once — whether the main body
completes normally or raises — in the finally block; if create itself
raised first, no teardown is attempted. -/
theorem claim_C3_teardown_exactly_once :
    ∀ {ρ : Type} (rid : ρ) (e : Err) (body teardown : ρ → Except Err Unit),
      (runDemo (Except.ok rid) body teardown).teardownAttempts = 1 ∧
      (runDemo (Except.error e) body teardown).teardownAttempts = 0 := by
  intro ρ rid e body teardown
  constructor
  · cases hb : body rid <;> cases ht : teardown rid <;>
      simp [runDemo, hb, ht]
  · rfl

/-- C4: a teardown error is caught and logged inside the cleanup block and
never re-raised: the run outcome is independent of the teardown outcome, a
run with a successful body still exits 0, a run whose body raised still
propagates that same error, and a raising teardown is recorded as logged. -/
theorem claim_C4_teardown_error_swallowed :
    ∀ {ρ : Type} (create : Except Err ρ) (body : ρ → Except Err Unit)
      (teardown teardown2 : ρ → Except Err Unit),
      (runDemo create body teardown).exitErr =
        (runDemo create body teardown2).exitErr ∧
      (∀ rid, create = Except.ok rid → body rid = Except.ok () →
        (runDemo create body teardown).exitErr = none) ∧
      (∀ rid e, create = Except.ok rid → body rid = Except.error e →
        (runDemo create body teardown).exitErr = some e) ∧
      (∀ rid e, create = Except.ok rid → teardown rid = Except.error e →
        (runDemo create body teardown).teardownErrorLogged = true) := by
  intro ρ create body td td2
  refine ⟨?_, ?_, ?_, ?_⟩
  · cases create with
    | error e => rfl
    | ok rid =>
      cases hb : body rid <;> cases ht : td rid <;> cases ht2 : td2 rid <;>
        simp [runDemo, hb, ht, ht2]
  · intro rid hc hb
    subst hc
    cases ht : td rid <;> simp [runDemo, hb, ht]
  · intro rid e hc hb
    subst hc
    cases ht : td rid <;> simp [runDemo, hb, ht]
  · intro rid e hc ht
    subst hc
    cases hb : body rid <;> simp [runDemo, hb, ht]

/-- Witness for C4 at a concrete input: with a successful body and a
raising teardown, the run still exits 0 and the teardown error is logged. -/
theorem claim_C4_witness :
    (runDemo (Except.ok 0) okBody badTeardown).exitErr = none ∧
    (runDemo (Except.ok 0) okBody badTeardown).teardownErrorLogged = true :=
  ⟨(claim_C4_teardown_error_swallowed (Except.ok 0) okBody badTeardown
      badTeardown).2.1 0 rfl rfl,
   (claim_C4_teardown_error_swallowed (Except.ok 0) okBody badTeardown
      badTeardown).2.2.2 0 (Err.runtimeError "teardown boom") rfl rfl⟩

/-- C5: any error raised inside the try block — a remote-service
`ClientError` or a generic runtime error, both covered by `Err` — is
logged and re-raised so the process exits non-zero, with the teardown
attempted when the resource id was assigned; a run that raises nothing
exits 0. -/
theorem claim_C5_errors_logged_and_reraised :
    ∀ {ρ : Type} (create : Except Err ρ) (body teardown : ρ → Except Err Unit),
      (∀ e, create = Except.error e →
        (runDemo create body teardown).exitErr = some e ∧
        (runDemo create body teardown).mainErrorLogged = some e) ∧
      (∀ rid e, create = Except.ok rid → body rid = Except.error e →
        (runDemo create body teardown).exitErr = some e ∧
        (runDemo create body teardown).mainErrorLogged = some e ∧
        (runDemo create body teardown).teardownAttempts = 1) ∧
      (∀ rid, create = Except.ok rid → body rid = Except.ok () →
        (runDemo create body teardown).exitErr = none) := by
  intro ρ create body td
  refine ⟨?_, ?_, ?_⟩
  · intro e hc
    subst hc
    exact ⟨rfl, rfl⟩
  · intro rid e hc hb
    subst hc
    cases ht : td rid <;> simp [runDemo, hb, ht]
  · intro rid hc hb
    subst hc
    cases ht : td rid <;> simp [runDemo, hb, ht]

/-- Witness for C5 at a concrete input: a body raising an AccessDenied
client error is re-raised (non-zero exit) and logged after the teardown
was attempted; the same demo with a clean body exits 0. -/
theorem claim_C5_witness :
    (runDemo (Except.ok 1) accessDeniedBody okTeardown).exitErr =
      some accessDeniedErr ∧
    (runDemo (Except.ok 1) accessDeniedBody okTeardown).mainErrorLogged =
      some accessDeniedErr ∧
    (runDemo (Except.ok 1) accessDeniedBody okTeardown).teardownAttempts = 1 ∧
    (runDemo (Except.ok 1) okBody okTeardown).exitErr = none :=
  ⟨((claim_C5_errors_logged_and_reraised (Except.ok 1) accessDeniedBody
      okTeardown).2.1 1 accessDeniedErr rfl rfl).1,
   ((claim_C5_errors_logged_and_reraised (Except.ok 1) accessDeniedBody
      okTeardown).2.1 1 accessDeniedErr rfl rfl).2.1,
   ((claim_C5_errors_logged_and_reraised (Except.ok 1) accessDeniedBody
      okTeardown).2.1 1 accessDeniedErr rfl rfl).2.2,
   (claim_C5_errors_logged_and_reraised (Except.ok 1) okBody
      okTeardown).2.2 1 rfl rfl⟩

/-- C9: teardown is guarded by the resource id: when the create/start call
raises while the id is still unset, the finally block issues no stop or
delete call at all. -/
theorem claim_C9_teardown_guarded_by_id :
    ∀ {ρ : Type} (e : Err) (body teardown : ρ → Except Err Unit),
      (runDemo (Except.error e) body teardown).teardownAttempts = 0 := by
  intro ρ e body td
  rfl

/-- C6: every sleep any polling loop performs lasts exactly 2 seconds —
fixed interval, no backoff, no jitter — the number of sleeps never exceeds
the loop budget, and every loop budget lies between 60 and 150 iterations
inclusive (so the maximum total wait of any loop is between 2 and 5
minutes). -/
theorem claim_C6_fixed_interval_and_budgets :
    (∀ fetch : Nat → SessionInfo,
      sleepsAreTwo (browserPoll fetch).trace = true ∧
      countSleeps (browserPoll fetch).trace ≤ browserPollBound) ∧
    (∀ fetch : Nat → GetMemoryResponse,
      sleepsAreTwo (memoryCreatePoll fetch).trace = true ∧
      countSleeps (memoryCreatePoll fetch).trace ≤ memoryCreateBound) ∧
    (∀ fetch : Nat → GetGatewayResponse,
      sleepsAreTwo (gatewayCreatePoll fetch).trace = true ∧
      countSleeps (gatewayCreatePoll fetch).trace ≤ gatewayCreateBound) ∧
    (∀ fetch : Nat → Except FetchErr GetMemoryResponse,
      sleepsAreTwo (memoryDeletionPoll fetch).trace = true) ∧
    (∀ fetch : Nat → Except FetchErr GetGatewayResponse,
      sleepsAreTwo (gatewayDeletionPoll fetch).trace = true) ∧
    (60 ≤ browserPollBound ∧ browserPollBound ≤ 150) ∧
    (60 ≤ memoryCreateBound ∧ memoryCreateBound ≤ 150) ∧
    (60 ≤ gatewayCreateBound ∧ gatewayCreateBound ≤ 150) ∧
    (60 ≤ memoryDeletionBound ∧ memoryDeletionBound ≤ 150) ∧
    (60 ≤ gatewayDeletionBound ∧ gatewayDeletionBound ≤ 150) := by
  refine ⟨?_, ?_, ?_, ?_, ?_, by decide, by decide, by decide, by decide,
    by decide⟩
  · intro fetch
    exact ⟨pollFrom_sleepsAreTwo _ _ fetch browserPollBound 0,
      pollFrom_countSleeps_le _ _ fetch browserPollBound 0⟩
  · intro fetch
    exact ⟨pollFrom_sleepsAreTwo _ _ fetch memoryCreateBound 0,
      pollFrom_countSleeps_le _ _ fetch memoryCreateBound 0⟩
  · intro fetch
    exact ⟨pollFrom_sleepsAreTwo _ _ fetch gatewayCreateBound 0,
      pollFrom_countSleeps_le _ _ fetch gatewayCreateBound 0⟩
  · intro fetch
    exact delPollFrom_sleepsAreTwo _ fetch memoryDeletionBound 0
  · intro fetch
    exact delPollFrom_sleepsAreTwo _ fetch gatewayDeletionBound 0

/-- C7: in the browser demo, the automation and live-view URLs are
surfaced exactly in the ready branch: when the poll ends ready, both URLs
are extracted from that same session-info response (whose status is ACTIVE
or READY); in every run in which no ready status is observed they remain
unset (`None`). -/
theorem claim_C7_stream_urls :
    ∀ fetch : Nat → SessionInfo,
      (∀ info, (browserPoll fetch).result = PollResult.ready info →
        (browserWait fetch).automationUrl = getAutomationUrl info ∧
        (browserWait fetch).liveViewUrl = getLiveViewUrl info ∧
        (info.status = "ACTIVE" ∨ info.status = "READY")) ∧
      ((∀ info, (browserPoll fetch).result ≠ PollResult.ready info) →
        (browserWait fetch).automationUrl = none ∧
        (browserWait fetch).liveViewUrl = none) := by
  intro fetch
  constructor
  · intro info h
    have hstat := pollFrom_ready_pred (fun r => browserReady r.status)
      (fun r => browserFail r.status) fetch browserPollBound 0 info
      (by simpa [browserPoll, pollLoop] using h)
    simp only [browserReady, Bool.or_eq_true, beq_iff_eq] at hstat
    refine ⟨?_, ?_, hstat⟩ <;> simp [browserWait, h]
  · intro hne
    cases hres : (browserPoll fetch).result with
    | ready info => exact absurd hres (hne info)
    | failed info => simp [browserWait, hres]
    | timeout => simp [browserWait, hres]

/-- A READY browser-session response carrying both stream endpoints. -/
def readySessionWithStreams : SessionInfo :=
  ⟨"READY", some ⟨some ⟨some "wss://automation.example"⟩,
    some ⟨some "wss://live-view.example"⟩⟩⟩

/-- Witness for C7 at a concrete input: a session READY on the first fetch
surfaces exactly the two endpoints of that response. -/
theorem claim_C7_witness :
    (browserWait fun _ => readySessionWithStreams).automationUrl =
      getAutomationUrl readySessionWithStreams ∧
    (browserWait fun _ => readySessionWithStreams).liveViewUrl =
      getLiveViewUrl readySessionWithStreams ∧
    (readySessionWithStreams.status = "ACTIVE" ∨
      readySessionWithStreams.status = "READY") :=
  (claim_C7_stream_urls (fun _ => readySessionWithStreams)).1
    readySessionWithStreams rfl

/-- C8: the memory demo body stores exactly one conversational event
(`create_event`, first call) and then immediately lists events
(`list_events`, second call) with the identical `memoryId`, `actorId` and
`sessionId` values that were passed to the store call. -/
theorem claim_C8_store_then_list :
    ∀ (memoryId : String) (t : Nat),
      (memoryBodyCalls memoryId t).countP (fun c => isCreateEventCall c) = 1 ∧
      (memoryBodyCalls memoryId t).get? 0 =
        some (MemApiCall.createEvent memoryId marvinActorId
          (memorySessionId t) 2) ∧
      (memoryBodyCalls memoryId t).get? 1 =
        some (MemApiCall.listEvents memoryId marvinActorId
          (memorySessionId t)) := by
  intro memoryId t
  exact ⟨rfl, rfl, rfl⟩

/-- C10: in each creation polling loop, the status fetch precedes the
sleep within an iteration and the ready payload (browser stream endpoints,
gateway endpoint URL) is the very response in which the ready status was
observed: when the first ready status appears at fetch `k`, the loop's
result is `PollResult.ready (fetch k)`, its trace is exactly
`fetch 0, sleep 2, fetch 1, …, fetch k` (`runTrace 0 k` — each sleep is
immediately preceded by a fetch, and no fetch or sleep follows the ready
fetch), so it performs `k + 1` fetches and `k` sleeps; in particular a
resource ready on the first fetch incurs no sleep. -/
theorem claim_C10_fetch_then_sleep_structure :
    (∀ (fetch : Nat → SessionInfo) (k : Nat), k < browserPollBound →
      (∀ j, j < k → browserReady (fetch j).status = false ∧
        browserFail (fetch j).status = false) →
      browserReady (fetch k).status = true →
      (browserPoll fetch).result = PollResult.ready (fetch k) ∧
      (browserPoll fetch).trace = runTrace 0 k ∧
      countFetches (browserPoll fetch).trace = k + 1 ∧
      countSleeps (browserPoll fetch).trace = k) ∧
    (∀ (fetch : Nat → GetGatewayResponse) (k : Nat), k < gatewayCreateBound →
      (∀ j, j < k → gatewayReady (fetch j).status = false ∧
        gatewayFail (fetch j).status = false) →
      gatewayReady (fetch k).status = true →
      (gatewayCreatePoll fetch).result = PollResult.ready (fetch k) ∧
      (gatewayCreatePoll fetch).trace = runTrace 0 k ∧
      countFetches (gatewayCreatePoll fetch).trace = k + 1 ∧
      countSleeps (gatewayCreatePoll fetch).trace = k) := by
  constructor
  · intro fetch k hk hj hr
    have h := browserPoll_ready_eq fetch k hk hj hr
    refine ⟨?_, ?_, ?_, ?_⟩ <;>
      simp [h, countFetches_runTrace, countSleeps_runTrace]
  · intro fetch k hk hj hr
    have h := gatewayCreatePoll_ready_eq fetch k hk hj hr
    refine ⟨?_, ?_, ?_, ?_⟩ <;>
      simp [h, countFetches_runTrace, countSleeps_runTrace]

/-- A gateway response READY on the first fetch, with its endpoint URL. -/
def readyGatewayResponse : GetGatewayResponse :=
  ⟨"READY", some "https://gw.example"⟩

/-- Witness for C10 at a concrete input: a gateway READY on the very first
fetch yields that response as the payload, a single-fetch trace and zero
sleeps. -/
theorem claim_C10_witness :
    (gatewayCreatePoll fun _ => readyGatewayResponse).result =
      PollResult.ready readyGatewayResponse ∧
    (gatewayCreatePoll fun _ => readyGatewayResponse).trace = runTrace 0 0 ∧
    countSleeps (gatewayCreatePoll fun _ => readyGatewayResponse).trace = 0 :=
  ⟨(claim_C10_fetch_then_sleep_structure.2 (fun _ => readyGatewayResponse) 0
      (by decide) (fun j hj => absurd hj (Nat.not_lt_zero j)) rfl).1,
   (claim_C10_fetch_then_sleep_structure.2 (fun _ => readyGatewayResponse) 0
      (by decide) (fun j hj => absurd hj (Nat.not_lt_zero j)) rfl).2.1,
   (claim_C10_fetch_then_sleep_structure.2 (fun _ => readyGatewayResponse) 0
      (by decide) (fun j hj => absurd hj (Nat.not_lt_zero j)) rfl).2.2.2⟩
